import Mathlib

/-!
Shallow embedding of `maro/rl/training/rollout_manager.py`:
the rollout-coordination protocol of the MARO reinforcement-learning
training loop.  `ParallelRolloutManager` drives remote actors over a
message bus (modelled here as an explicit list of received messages);
`LocalRolloutManager` drives one environment directly.
-/

namespace RolloutManager

/-- Transitions are opaque; an `ExperienceSet` is an ordered sequence of
transition records, as in `maro.rl.experience.ExperienceSet`. -/
abbrev ExperienceSet := List Nat

/-- `ExperienceSet.size`: number of transitions. -/
def expSize (e : ExperienceSet) : Nat := e.length

/-- `ExperienceSet.extend`: append another set's records in arrival order. -/
def expExtend (e e2 : ExperienceSet) : ExperienceSet := e ++ e2

/-- Per-policy experience mapping (`Dict[str, ExperienceSet]`), as an
association list keyed by policy name. -/
abbrev ExpByPolicy := List (String × ExperienceSet)

/-- `combined_exp_by_policy[policy_name].extend(exp)` on a
`defaultdict(ExperienceSet)`: a missing key is created empty, then extended. -/
def extendEntry : ExpByPolicy → String → ExperienceSet → ExpByPolicy
  | [], name, exp => [(name, expExtend [] exp)]
  | (n, e) :: rest, name, exp =>
      if n = name then (n, expExtend e exp) :: rest
      else (n, e) :: extendEntry rest name exp

/-- The merge loop
`for policy_name, exp in exp_by_policy.items(): combined[policy_name].extend(exp)`. -/
def mergeExp (combined : ExpByPolicy) (incoming : ExpByPolicy) : ExpByPolicy :=
  incoming.foldl (fun acc p => extendEntry acc p.1 p.2) combined

/-- `sum(exp.size for exp in exp_by_policy.values())`. -/
def sumSizes (incoming : ExpByPolicy) : Nat :=
  incoming.foldl (fun acc p => acc + expSize p.2) 0

/-- Message tags from `maro.rl.training.message_enums.MsgTag` (the ones the
rollout manager uses). -/
inductive MsgTag where
  | COLLECT
  | COLLECT_DONE
  | EVAL
  | EVAL_DONE
  | EXIT
deriving DecidableEq, Repr

/-- A received message envelope: tag, source, and the body fields the
rollout manager reads (`MsgKey.EPISODE_INDEX`, `MsgKey.SEGMENT_INDEX`,
`MsgKey.NUM_STEPS`, `MsgKey.EXPERIENCES`, `MsgKey.EPISODE_END`,
`MsgKey.ENV_SUMMARY`). -/
structure Msg where
  tag : MsgTag
  source : String
  episodeIndex : Int
  segmentIndex : Int
  numSteps : Int
  experiences : ExpByPolicy
  episodeEnd : Bool
  envSummary : Nat
deriving DecidableEq, Repr

/-- The mutable round state maintained by the receive loop of
`ParallelRolloutManager.collect`: the local `combined_exp_by_policy` and
`num_finishes` together with the instance attributes the loop mutates
(`episode_complete`, `total_experiences_collected`, `total_env_steps`). -/
structure RoundState where
  combined : ExpByPolicy
  numFinishes : Nat
  episodeComplete : Bool
  totalExperiencesCollected : Nat
  totalEnvSteps : Int
deriving DecidableEq, Repr

/-- Body of the receive loop of `ParallelRolloutManager.collect` for one
received message.  Returns the updated round state and whether the message
was counted toward quorum (i.e. reached `num_finishes += 1`).

Source (rollout_manager.py lines 324-347):
```
if msg.tag != MsgTag.COLLECT_DONE or msg.body[MsgKey.EPISODE_INDEX] != episode_index:
    ...log...; continue
if segment_index - msg.body[MsgKey.SEGMENT_INDEX] <= self._max_staleness:
    exp_by_policy = msg.body[MsgKey.EXPERIENCES]
    self.total_experiences_collected += sum(exp.size for exp in exp_by_policy.values())
    self.total_env_steps += msg.body[MsgKey.NUM_STEPS]
    for policy_name, exp in exp_by_policy.items():
        combined_exp_by_policy[policy_name].extend(exp)
    if msg.body[MsgKey.SEGMENT_INDEX] == segment_index:
        self.episode_complete = msg.body[MsgKey.EPISODE_END]
        ...
        num_finishes += 1
```
-/
def processMsg (maxStaleness : Int) (episodeIndex segmentIndex : Int)
    (st : RoundState) (m : Msg) : RoundState × Bool :=
  if m.tag ≠ MsgTag.COLLECT_DONE ∨ m.episodeIndex ≠ episodeIndex then
    (st, false)
  else if segmentIndex - m.segmentIndex ≤ maxStaleness then
    let st1 : RoundState :=
      { st with
        totalExperiencesCollected := st.totalExperiencesCollected + sumSizes m.experiences
        totalEnvSteps := st.totalEnvSteps + m.numSteps
        combined := mergeExp st.combined m.experiences }
    if m.segmentIndex = segmentIndex then
      ({ st1 with episodeComplete := m.episodeEnd, numFinishes := st1.numFinishes + 1 }, true)
    else
      (st1, false)
  else
    (st, false)

/-- The receive loop `for _ in range(self.max_receive_attempts)` of
`ParallelRolloutManager.collect`: each attempt receives one message from
the stream; after a message is counted toward quorum, the loop breaks once
`num_finishes == self.num_actors`.  An exhausted stream ends the round
(no further message ever arrives). -/
def gather (numActors : Nat) (maxStaleness : Int) (episodeIndex segmentIndex : Int) :
    Nat → List Msg → RoundState → RoundState
  | 0, _, st => st
  | _ + 1, [], st => st
  | attempts + 1, m :: ms, st =>
      let p := processMsg maxStaleness episodeIndex segmentIndex st m
      if p.2 = true ∧ p.1.numFinishes = numActors then p.1
      else gather numActors maxStaleness episodeIndex segmentIndex attempts ms p.1

/-- The `ParallelRolloutManager` instance: configuration fixed at
construction plus the mutable attributes.  An exploration scheme is
modelled as a schedule counter whose current value stands for
`exploration.parameters`; `exploration.step()` advances it by one. -/
structure ParallelRolloutManager where
  numActors : Nat
  maxReceiveAttempts : Nat
  maxStaleness : Int
  numEvalActors : Nat
  numSteps : Int
  actors : List String
  explorationDict : Option (List (String × Nat))
  explorationUpdate : Bool
  episodeComplete : Bool
  totalExperiencesCollected : Nat
  totalEnvSteps : Int
deriving DecidableEq, Repr

/-- `ParallelRolloutManager.__init__`: raises
`ValueError("num_eval_actors cannot exceed the number of available actors")`
when `num_eval_actors > num_actors`; otherwise builds the instance with
`max_receive_attempts` defaulting to `num_actors`,
`total_experiences_collected = 0`, `total_env_steps = 0`,
`episode_complete = False` (set by `AbsRolloutManager.__init__`) and
`self._exploration_update = True`. -/
def ParallelRolloutManager.init (numActors : Nat) (actors : List String)
    (explorationDict : Option (List (String × Nat))) (numSteps : Int)
    (maxReceiveAttempts : Option Nat) (maxStaleness : Int) (numEvalActors : Nat) :
    Except String ParallelRolloutManager :=
  if numEvalActors > numActors then
    Except.error "ValueError: num_eval_actors cannot exceed the number of available actors"
  else
    Except.ok
      { numActors := numActors
        maxReceiveAttempts := maxReceiveAttempts.getD numActors
        maxStaleness := maxStaleness
        numEvalActors := numEvalActors
        numSteps := numSteps
        actors := actors
        explorationDict := explorationDict
        explorationUpdate := true
        episodeComplete := false
        totalExperiencesCollected := 0
        totalEnvSteps := 0 }

/-- Result of one `ParallelRolloutManager.collect` call: the updated
instance, the exploration parameters included in the broadcast COLLECT
request body (`none` when the `MsgKey.EXPLORATION` field was absent), and
the returned `combined_exp_by_policy`. -/
structure CollectResult where
  mgr : ParallelRolloutManager
  sentExploration : Option (List (String × Nat))
  combined : ExpByPolicy
deriving DecidableEq, Repr

/-- Body of `ParallelRolloutManager.collect` from the `ibroadcast` on: the
stream of messages the proxy delivers during the round is the explicit
`msgs` argument; `sentExploration` records the exploration parameters the
request body carried.  After the gather phase, if `self.episode_complete`
is true and `self.exploration_dict` is truthy, every exploration scheme is
stepped and `self._exploration_update` is set back to true. -/
def collectGatherPhase (self : ParallelRolloutManager)
    (sentExploration : Option (List (String × Nat)))
    (episodeIndex segmentIndex : Int) (msgs : List Msg) : CollectResult :=
  let round0 : RoundState :=
    { combined := []
      numFinishes := 0
      episodeComplete := self.episodeComplete
      totalExperiencesCollected := self.totalExperiencesCollected
      totalEnvSteps := self.totalEnvSteps }
  let round := gather self.numActors self.maxStaleness episodeIndex segmentIndex
      self.maxReceiveAttempts msgs round0
  let self :=
    { self with
      episodeComplete := round.episodeComplete
      totalExperiencesCollected := round.totalExperiencesCollected
      totalEnvSteps := round.totalEnvSteps }
  let self :=
    if self.episodeComplete then
      match self.explorationDict with
      | some d =>
          if d.isEmpty then self  -- an empty dict is falsy in `if self.exploration_dict:`
          else
            { self with
              explorationDict := some (d.map fun p => (p.1, p.2 + 1))
              explorationUpdate := true }
      | none => self
    else self
  { mgr := self, sentExploration := sentExploration, combined := round.combined }

/-- `ParallelRolloutManager.collect(episode_index, segment_index, policy_state_dict)`
proper: build the request body, then run the broadcast/gather phase
(`collectGatherPhase`).  Building the body evaluates
`{name: exploration.parameters for name, exploration in self.exploration_dict.items()}`
when `self._exploration_update` is true, which raises `AttributeError`
before any broadcast when `self.exploration_dict` is `None`; on inclusion
the dirty flag is cleared immediately. -/
def ParallelRolloutManager.collect (self : ParallelRolloutManager)
    (episodeIndex segmentIndex : Int) (msgs : List Msg) :
    Except String CollectResult :=
  if self.explorationUpdate then
    match self.explorationDict with
    | none =>
        Except.error "AttributeError: NoneType object has no attribute items"
    | some d =>
        Except.ok (collectGatherPhase { self with explorationUpdate := false }
          (some d) episodeIndex segmentIndex msgs)
  else
    Except.ok (collectGatherPhase self none episodeIndex segmentIndex msgs)

/-- `env_summary_dict[msg.source] = msg.body[MsgKey.ENV_SUMMARY]`: Python
dict assignment, overwriting any prior entry for the same source. -/
def insertSummary : List (String × Nat) → String → Nat → List (String × Nat)
  | [], src, v => [(src, v)]
  | (s, w) :: rest, src, v =>
      if s = src then (s, v) :: rest else (s, w) :: insertSummary rest src v

/-- The receive loop of `ParallelRolloutManager.evaluate`
(`for msg in self._proxy.receive()`): discard messages that are not
EVAL_DONE for the requested episode; record each accepted summary under the
sender's identity; break once `num_finishes == self._num_eval_actors`.
The stream is the explicit message list; an exhausted stream ends the loop. -/
def evalGather (numEvalActors : Nat) (ep : Int) :
    List Msg → List (String × Nat) → Nat → List (String × Nat)
  | [], dict, _ => dict
  | m :: ms, dict, numFinishes =>
      if m.tag ≠ MsgTag.EVAL_DONE ∨ m.episodeIndex ≠ ep then
        evalGather numEvalActors ep ms dict numFinishes
      else
        let dict1 := insertSummary dict m.source m.envSummary
        if m.episodeIndex = ep then
          if numFinishes + 1 = numEvalActors then dict1
          else evalGather numEvalActors ep ms dict1 (numFinishes + 1)
        else
          evalGather numEvalActors ep ms dict1 numFinishes

/-- `ParallelRolloutManager.evaluate(ep, policy_state_dict)`.
`choices(self._actors, k=self._num_eval_actors)` is a random selection of
`num_eval_actors` roster members with repetition; it is passed in as the
`selection` argument.  `iscatter` sends one request per selected actor;
the result is the number of scatter requests sent paired with the returned
`env_summary_dict`. -/
def ParallelRolloutManager.evaluate (self : ParallelRolloutManager)
    (ep : Int) (selection : List String) (msgs : List Msg) :
    Nat × List (String × Nat) :=
  (selection.length, evalGather self.numEvalActors ep msgs [] 0)

/-!  ## LocalRolloutManager

The environment wrapper (`AbsEnvWrapper`) is an external collaborator.  For
the sequential coordinator it is modelled as a counter environment: after a
reset, `step_index` counts executed steps, and the environment has a
pending state (`env.state` truthy) exactly while `step_index < horizon`
(it reaches its terminal state at step `horizon`).  -/

/-- Counter model of the environment wrapper used by `LocalRolloutManager`. -/
structure LocalEnv where
  stepIndex : Nat
  horizon : Nat
deriving DecidableEq, Repr

/-- `env.state` is truthy (a pending state exists) while the terminal step
has not been reached. -/
def LocalEnv.hasState (e : LocalEnv) : Bool := e.stepIndex < e.horizon

/-- `env.step(action)`: advance the environment by one step. -/
def LocalEnv.step (e : LocalEnv) : LocalEnv := { e with stepIndex := e.stepIndex + 1 }

/-- The `LocalRolloutManager` instance: the environment, the per-scheme
exploration schedule counters (of which `exploration.parameters` is the
current value), and the fields `collect` reads and writes.
`self._num_steps = num_steps if num_steps > 0 else float("inf")` is
modelled as `Option Nat` with `none` for the unbounded case. -/
structure LocalRolloutManager where
  env : LocalEnv
  explorationDict : Option (List (String × Nat))
  numStepsBound : Option Nat
  episodeComplete : Bool
deriving DecidableEq, Repr

/-- `LocalRolloutManager.__init__`: `num_steps == 0 or num_steps < -1`
raises `ValueError("num_steps must be a positive integer or -1")`; the
step budget stored is `num_steps` when positive and unbounded otherwise. -/
def LocalRolloutManager.init (env : LocalEnv)
    (explorationDict : Option (List (String × Nat))) (numSteps : Int) :
    Except String LocalRolloutManager :=
  if numSteps = 0 ∨ numSteps < -1 then
    Except.error "ValueError: num_steps must be a positive integer or -1"
  else
    Except.ok
      { env := env
        explorationDict := explorationDict
        numStepsBound := if numSteps > 0 then some numSteps.toNat else none
        episodeComplete := false }

/-- One decrement of the loop counter `steps_to_go -= 1` (`∞ - 1 = ∞`). -/
def decBudget : Option Nat → Option Nat
  | none => none
  | some n => some (n - 1)

/-- Truthiness of `steps_to_go > 0` (always true for `float("inf")`). -/
def budgetPos : Option Nat → Bool
  | none => true
  | some n => 0 < n

/-- The rollout loop of `LocalRolloutManager.collect`:
`while self.env.state and steps_to_go > 0: ... self.env.step(action); steps_to_go -= 1`.
Action computation touches only the policies and exploration transforms,
which do not affect the loop's control state. -/
def rolloutLoop (env : LocalEnv) (stepsToGo : Option Nat) : LocalEnv :=
  if _h : env.hasState = true ∧ budgetPos stepsToGo = true then
    rolloutLoop env.step (decBudget stepsToGo)
  else
    env
termination_by env.horizon - env.stepIndex
decreasing_by
  have hs : env.stepIndex < env.horizon := by
    simpa [LocalEnv.hasState] using _h.1
  simp [LocalEnv.step]
  omega

/-- `LocalRolloutManager.collect(ep, segment, policy_state_dict)`: reset and
start the environment when it holds no pending state, run the rollout loop,
and when the environment is terminal afterwards set `episode_complete` and
advance every exploration scheme's schedule by one step.  (The returned
`self.env.get_experiences()` is opaque and omitted.) -/
def LocalRolloutManager.collect (self : LocalRolloutManager) : LocalRolloutManager :=
  let env0 :=
    if self.env.hasState = false then { self.env with stepIndex := 0 } else self.env
  let env1 := rolloutLoop env0 self.numStepsBound
  if env1.hasState = false then
    { self with
      env := env1
      episodeComplete := true
      explorationDict := self.explorationDict.map (·.map fun p => (p.1, p.2 + 1)) }
  else
    { self with env := env1 }

/-!  ## Derived predicates used to state properties -/

/-- A message is counted toward quorum by the receive loop of
`ParallelRolloutManager.collect`: right tag, right episode, within the
staleness window, and reporting exactly the requested segment. -/
def isCounted (maxStaleness episodeIndex segmentIndex : Int) (m : Msg) : Bool :=
  (m.tag == MsgTag.COLLECT_DONE) && (m.episodeIndex == episodeIndex) &&
    (decide (segmentIndex - m.segmentIndex ≤ maxStaleness)) &&
    (m.segmentIndex == segmentIndex)

/-- The `episode_end` flag of the last quorum-counted message of a stream,
or `dflt` when the stream counts none. -/
def lastCountedEnd (maxStaleness episodeIndex segmentIndex : Int)
    (msgs : List Msg) (dflt : Bool) : Bool :=
  msgs.foldl
    (fun acc m =>
      if isCounted maxStaleness episodeIndex segmentIndex m then m.episodeEnd else acc)
    dflt

/-- Step budget available to a rollout loop that starts `remaining` steps
from the terminal state: the bound itself when bounded, `remaining` when
unbounded. -/
def budgetVal (remaining : Nat) : Option Nat → Nat
  | none => remaining
  | some n => n

end RolloutManager

/-!  ## Theorems -/

namespace RolloutManager

/-- The quorum flag returned by `processMsg` is exactly `isCounted`. -/
theorem processMsg_counted (maxStaleness ep seg : Int) (st : RoundState) (m : Msg) :
    (processMsg maxStaleness ep seg st m).2 = isCounted maxStaleness ep seg m := by
  unfold processMsg isCounted
  by_cases h4 : m.segmentIndex = seg
  · subst h4
    by_cases h1 : m.tag = MsgTag.COLLECT_DONE <;>
      by_cases h2 : m.episodeIndex = ep <;>
        by_cases h3 : (0 : Int) ≤ maxStaleness <;>
          simp [h1, h2, h3, sub_self]
  · by_cases h1 : m.tag = MsgTag.COLLECT_DONE <;>
      by_cases h2 : m.episodeIndex = ep <;>
        by_cases h3 : seg - m.segmentIndex ≤ maxStaleness <;>
          simp [h1, h2, h3, h4]

/-- `num_finishes` advances by one exactly on quorum-counted messages. -/
theorem processMsg_numFinishes (maxStaleness ep seg : Int) (st : RoundState) (m : Msg) :
    (processMsg maxStaleness ep seg st m).1.numFinishes =
      st.numFinishes + (if isCounted maxStaleness ep seg m then 1 else 0) := by
  unfold processMsg isCounted
  by_cases h4 : m.segmentIndex = seg
  · subst h4
    by_cases h1 : m.tag = MsgTag.COLLECT_DONE <;>
      by_cases h2 : m.episodeIndex = ep <;>
        by_cases h3 : (0 : Int) ≤ maxStaleness <;>
          simp [h1, h2, h3, sub_self]
  · by_cases h1 : m.tag = MsgTag.COLLECT_DONE <;>
      by_cases h2 : m.episodeIndex = ep <;>
        by_cases h3 : seg - m.segmentIndex ≤ maxStaleness <;>
          simp [h1, h2, h3, h4]

/-- `episode_complete` is overwritten with `episode_end` exactly on
quorum-counted messages; otherwise it is untouched. -/
theorem processMsg_episodeComplete (maxStaleness ep seg : Int) (st : RoundState) (m : Msg) :
    (processMsg maxStaleness ep seg st m).1.episodeComplete =
      (if isCounted maxStaleness ep seg m then m.episodeEnd else st.episodeComplete) := by
  unfold processMsg isCounted
  by_cases h4 : m.segmentIndex = seg
  · subst h4
    by_cases h1 : m.tag = MsgTag.COLLECT_DONE <;>
      by_cases h2 : m.episodeIndex = ep <;>
        by_cases h3 : (0 : Int) ≤ maxStaleness <;>
          simp [h1, h2, h3, sub_self]
  · by_cases h1 : m.tag = MsgTag.COLLECT_DONE <;>
      by_cases h2 : m.episodeIndex = ep <;>
        by_cases h3 : seg - m.segmentIndex ≤ maxStaleness <;>
          simp [h1, h2, h3, h4]

/-- C1: a COLLECT_DONE message for the requested episode reporting segment
`s'` against requested segment `s` has its experience merged into the
round's combined ExperienceSet exactly when `s - s' ≤ max_staleness`;
beyond that bound the message leaves the round state entirely unchanged.
The boundary cases `s - s' = max_staleness` (accept) and
`s - s' = max_staleness + 1` (reject) are instances. -/
theorem collect_staleness_boundary (maxStaleness ep seg : Int) (st : RoundState) (m : Msg)
    (htag : m.tag = MsgTag.COLLECT_DONE) (hep : m.episodeIndex = ep) :
    (seg - m.segmentIndex ≤ maxStaleness →
      (processMsg maxStaleness ep seg st m).1.combined = mergeExp st.combined m.experiences)
    ∧ (maxStaleness < seg - m.segmentIndex →
      processMsg maxStaleness ep seg st m = (st, false)) := by
  constructor
  · intro hstale
    unfold processMsg
    by_cases h4 : m.segmentIndex = seg
    · subst h4
      rw [sub_self] at hstale
      simp [htag, hep, hstale, sub_self]
    · simp [htag, hep, hstale, h4]
  · intro hstale
    unfold processMsg
    simp [htag, hep, not_le.mpr hstale]

/-- C1 witness: `max_staleness = 2`, requested segment `5`: a report for
segment `3` (`s - s' = 2 = max_staleness`) is merged, a report for segment
`2` (`s - s' = 3 = max_staleness + 1`) is discarded unchanged. -/
theorem collect_staleness_boundary_witness :
    ((5 : Int) - 3 ≤ 2 →
      (processMsg 2 0 5 ⟨[], 0, false, 0, 0⟩
        ⟨MsgTag.COLLECT_DONE, "a0", 0, 3, 4, [("p", [1, 2])], false, 0⟩).1.combined
        = mergeExp [] [("p", [1, 2])])
    ∧ ((2 : Int) < 5 - 2 →
      processMsg 2 0 5 ⟨[], 0, false, 0, 0⟩
        ⟨MsgTag.COLLECT_DONE, "a0", 0, 2, 4, [("p", [1, 2])], false, 0⟩
        = (⟨[], 0, false, 0, 0⟩, false)) :=
  ⟨(collect_staleness_boundary 2 0 5 ⟨[], 0, false, 0, 0⟩
      ⟨MsgTag.COLLECT_DONE, "a0", 0, 3, 4, [("p", [1, 2])], false, 0⟩ rfl rfl).1,
   (collect_staleness_boundary 2 0 5 ⟨[], 0, false, 0, 0⟩
      ⟨MsgTag.COLLECT_DONE, "a0", 0, 2, 4, [("p", [1, 2])], false, 0⟩ rfl rfl).2⟩

/-- C9: a message whose kind is not COLLECT_DONE or whose episode index
differs from the requested episode leaves the whole round state — combined
experience, quorum count, episode flag and both running totals — unchanged,
and is not counted toward quorum. -/
theorem collect_ignores_mismatched (maxStaleness ep seg : Int) (st : RoundState) (m : Msg)
    (h : m.tag ≠ MsgTag.COLLECT_DONE ∨ m.episodeIndex ≠ ep) :
    processMsg maxStaleness ep seg st m = (st, false) := by
  unfold processMsg
  rw [if_pos h]

/-- C9 witness: an EVAL_DONE message, and a COLLECT_DONE message for
episode 7 against requested episode 0, both leave the round state unchanged. -/
theorem collect_ignores_mismatched_witness :
    processMsg 0 0 5 ⟨[("p", [1])], 2, true, 3, 4⟩
        ⟨MsgTag.EVAL_DONE, "a0", 0, 5, 4, [("q", [9])], true, 0⟩
      = (⟨[("p", [1])], 2, true, 3, 4⟩, false)
    ∧ processMsg 0 0 5 ⟨[("p", [1])], 2, true, 3, 4⟩
        ⟨MsgTag.COLLECT_DONE, "a0", 7, 5, 4, [("q", [9])], true, 0⟩
      = (⟨[("p", [1])], 2, true, 3, 4⟩, false) :=
  ⟨collect_ignores_mismatched 0 0 5 ⟨[("p", [1])], 2, true, 3, 4⟩
      ⟨MsgTag.EVAL_DONE, "a0", 0, 5, 4, [("q", [9])], true, 0⟩ (Or.inl (by decide)),
   collect_ignores_mismatched 0 0 5 ⟨[("p", [1])], 2, true, 3, 4⟩
      ⟨MsgTag.COLLECT_DONE, "a0", 7, 5, 4, [("q", [9])], true, 0⟩ (Or.inr (by decide))⟩

/-- C10: construction with `num_eval_actors > num_actors` raises a
ValueError and produces no manager; construction with
`num_eval_actors ≤ num_actors` passes this check and produces a manager. -/
theorem init_eval_actor_check (numActors : Nat) (actors : List String)
    (explorationDict : Option (List (String × Nat))) (numSteps : Int)
    (maxReceiveAttempts : Option Nat) (maxStaleness : Int) (numEvalActors : Nat) :
    (numEvalActors > numActors →
      ∃ e, ParallelRolloutManager.init numActors actors explorationDict numSteps
        maxReceiveAttempts maxStaleness numEvalActors = Except.error e)
    ∧ (numEvalActors ≤ numActors →
      ∃ mgr, ParallelRolloutManager.init numActors actors explorationDict numSteps
        maxReceiveAttempts maxStaleness numEvalActors = Except.ok mgr) := by
  constructor
  · intro hgt
    refine ⟨"ValueError: num_eval_actors cannot exceed the number of available actors", ?_⟩
    unfold ParallelRolloutManager.init
    rw [if_pos hgt]
  · intro hle
    refine ⟨⟨numActors, maxReceiveAttempts.getD numActors, maxStaleness, numEvalActors,
      numSteps, actors, explorationDict, true, false, 0, 0⟩, ?_⟩
    unfold ParallelRolloutManager.init
    rw [if_neg (not_lt.mpr hle)]

/-- C10 witness: 3 eval actors against 2 actors is rejected; 2 against 2
is accepted. -/
theorem init_eval_actor_check_witness :
    ((3 : Nat) > 2 →
      ∃ e, ParallelRolloutManager.init 2 ["a0", "a1"] none (-1) none 0 3 = Except.error e)
    ∧ ((2 : Nat) ≤ 2 →
      ∃ mgr, ParallelRolloutManager.init 2 ["a0", "a1"] none (-1) none 0 2 = Except.ok mgr) :=
  ⟨(init_eval_actor_check 2 ["a0", "a1"] none (-1) none 0 3).1,
   (init_eval_actor_check 2 ["a0", "a1"] none (-1) none 0 2).2⟩

/-- C6: a manager constructed with `exploration_dict = None` has the
exploration-update flag initialized true, so its first `collect` call
evaluates `self.exploration_dict.items()` on `None` while building the
request body and raises before any broadcast: no result is produced. -/
theorem collect_none_exploration_raises (numActors : Nat) (actors : List String)
    (numSteps : Int) (maxReceiveAttempts : Option Nat) (maxStaleness : Int)
    (numEvalActors : Nat) (mgr : ParallelRolloutManager)
    (hinit : ParallelRolloutManager.init numActors actors none numSteps
      maxReceiveAttempts maxStaleness numEvalActors = Except.ok mgr)
    (ep seg : Int) (msgs : List Msg) :
    ∃ e, mgr.collect ep seg msgs = Except.error e := by
  unfold ParallelRolloutManager.init at hinit
  by_cases hgt : numEvalActors > numActors
  · simp [hgt] at hinit
  · simp [hgt] at hinit
    exact ⟨"AttributeError: NoneType object has no attribute items", by rw [← hinit]; rfl⟩

/-- C6 witness: the first `collect` of a manager built without an
exploration dict fails. -/
theorem collect_none_exploration_raises_witness :
    ParallelRolloutManager.init 1 ["a0"] none (-1) none 0 1
      = Except.ok ⟨1, 1, 0, 1, -1, ["a0"], none, true, false, 0, 0⟩
    ∧ ∃ e, (⟨1, 1, 0, 1, -1, ["a0"], none, true, false, 0, 0⟩ :
        ParallelRolloutManager).collect 0 0 [] = Except.error e :=
  ⟨rfl,
   collect_none_exploration_raises 1 ["a0"] (-1) none 0 1
     ⟨1, 1, 0, 1, -1, ["a0"], none, true, false, 0, 0⟩ rfl 0 0 []⟩

/-- C2 counterexample: requested episode 0, segment 5, three actors.  The
first received message is counted toward quorum and signals episode
termination, yet `collect` returns with `episode_complete = false`,
because the second matching message (reporting no termination) overwrote
the flag.  This refutes "it is true when collect returns, regardless of
any further messages received later in the same gather phase". -/
theorem collect_termination_overwritten_counterexample :
    (processMsg 0 0 5 ⟨[], 0, false, 0, 0⟩
        ⟨MsgTag.COLLECT_DONE, "a0", 0, 5, 4, [("p", [1, 2])], true, 0⟩).2 = true
    ∧ (⟨MsgTag.COLLECT_DONE, "a0", 0, 5, 4, [("p", [1, 2])], true, 0⟩ : Msg).episodeEnd = true
    ∧ ((⟨3, 3, 0, 1, -1, ["a0", "a1", "a2"], some [("eps", 0)], false, false, 0, 0⟩ :
        ParallelRolloutManager).collect 0 5
        [⟨MsgTag.COLLECT_DONE, "a0", 0, 5, 4, [("p", [1, 2])], true, 0⟩,
         ⟨MsgTag.COLLECT_DONE, "a1", 0, 5, 4, [], false, 0⟩]).map
        (fun r => r.mgr.episodeComplete) = Except.ok false :=
  ⟨rfl, rfl, rfl⟩

/-- C2 amended: a counted message with the requested segment index does not
latch `episode_complete` to true — it assigns the message's own
`episode_end` flag to it, so a termination signal can be overwritten by a
later matching message reporting no termination, and the value at return is
that of the last counted message. -/
theorem collect_termination_assigned_per_message (maxStaleness ep seg : Int)
    (st : RoundState) (m : Msg)
    (htag : m.tag = MsgTag.COLLECT_DONE) (hep : m.episodeIndex = ep)
    (hseg : m.segmentIndex = seg) (hstale : 0 ≤ maxStaleness) :
    (processMsg maxStaleness ep seg st m).1.episodeComplete = m.episodeEnd := by
  have hc : isCounted maxStaleness ep seg m = true := by
    unfold isCounted
    subst hseg
    simp [htag, hep, sub_self, hstale]
  rw [processMsg_episodeComplete, if_pos hc]

/-- C2 amended witness: a counted non-terminating message resets
`episode_complete` to false even from a state where it was true. -/
theorem collect_termination_assigned_per_message_witness :
    (⟨MsgTag.COLLECT_DONE, "a1", 0, 5, 4, [], false, 0⟩ : Msg).tag = MsgTag.COLLECT_DONE
    ∧ (processMsg 0 0 5 ⟨[], 1, true, 0, 0⟩
        ⟨MsgTag.COLLECT_DONE, "a1", 0, 5, 4, [], false, 0⟩).1.episodeComplete = false :=
  ⟨rfl,
   collect_termination_assigned_per_message 0 0 5 ⟨[], 1, true, 0, 0⟩
     ⟨MsgTag.COLLECT_DONE, "a1", 0, 5, 4, [], false, 0⟩ rfl rfl rfl (by decide)⟩

/-- C3 counterexample: two actors, but only one COLLECT_DONE for the
requested segment arrives, reporting termination.  After the round
`episode_complete` is true even though only one of the two actors (fewer
than all) reported episode termination. -/
theorem collect_single_actor_termination_counterexample :
    ((⟨2, 3, 0, 1, -1, ["a0", "a1"], none, false, false, 0, 0⟩ :
        ParallelRolloutManager).collect 0 5
        [⟨MsgTag.COLLECT_DONE, "a0", 0, 5, 4, [("p", [1])], true, 0⟩]).map
      (fun r => r.mgr.episodeComplete) = Except.ok true
    ∧ (gather 2 0 0 5 3 [⟨MsgTag.COLLECT_DONE, "a0", 0, 5, 4, [("p", [1])], true, 0⟩]
        ⟨[], 0, false, 0, 0⟩).numFinishes = 1
    ∧ (1 : Nat) < 2 :=
  ⟨rfl, rfl, by decide⟩

/-- C3 amended: for a round in which fewer responses are counted than
`num_actors` (so the quorum break is never taken and every received
message is processed), `episode_complete` after the gather phase equals the
`episode_end` flag of the last counted message — its entry value if none
was counted.  In particular a termination report from a single actor makes
it true; agreement of all actors is not required. -/
theorem collect_episode_complete_last_counted (numActors : Nat)
    (maxStaleness ep seg : Int) (msgs : List Msg) (attempts : Nat) (st : RoundState)
    (hlen : msgs.length ≤ attempts)
    (hq : st.numFinishes + msgs.countP (isCounted maxStaleness ep seg) < numActors) :
    (gather numActors maxStaleness ep seg attempts msgs st).episodeComplete =
      lastCountedEnd maxStaleness ep seg msgs st.episodeComplete := by
  induction msgs generalizing attempts st with
  | nil => cases attempts <;> simp [gather, lastCountedEnd]
  | cons m ms ih =>
      cases attempts with
      | zero => simp at hlen
      | succ a =>
          have hnf := processMsg_numFinishes maxStaleness ep seg st m
          have hec := processMsg_episodeComplete maxStaleness ep seg st m
          rw [List.countP_cons] at hq
          simp only [List.length_cons, Nat.succ_le_succ_iff] at hlen
          have hlast : lastCountedEnd maxStaleness ep seg (m :: ms) st.episodeComplete =
              lastCountedEnd maxStaleness ep seg ms
                (if isCounted maxStaleness ep seg m then m.episodeEnd
                 else st.episodeComplete) := rfl
          by_cases hc : isCounted maxStaleness ep seg m = true
          · simp only [hc, if_true] at hnf hec hq hlast
            have hne : (processMsg maxStaleness ep seg st m).1.numFinishes ≠ numActors := by
              omega
            simp only [gather]
            rw [if_neg (fun hand => hne hand.2)]
            rw [ih a (processMsg maxStaleness ep seg st m).1 hlen (by omega)]
            rw [hlast, hec]
          · have hcf : isCounted maxStaleness ep seg m = false := by
              simpa using hc
            simp only [hcf, Bool.false_eq_true, if_false] at hnf hec hq hlast
            have hp2 := processMsg_counted maxStaleness ep seg st m
            rw [hcf] at hp2
            simp only [gather]
            rw [if_neg (by simp [hp2])]
            rw [ih a (processMsg maxStaleness ep seg st m).1 hlen (by omega)]
            rw [hlast, hec]

/-- C3 amended witness: two actors, requested segment 5, one counted
terminating message: `episode_complete` ends true with quorum never
reached (`0 + 1 < 2`). -/
theorem collect_episode_complete_last_counted_witness :
    ([⟨MsgTag.COLLECT_DONE, "a0", 0, 5, 4, [("p", [1])], true, 0⟩] : List Msg).length ≤ 3
    ∧ (0 : Nat) + ([⟨MsgTag.COLLECT_DONE, "a0", 0, 5, 4, [("p", [1])], true, 0⟩] :
        List Msg).countP (isCounted 0 0 5) < 2
    ∧ (gather 2 0 0 5 3 [⟨MsgTag.COLLECT_DONE, "a0", 0, 5, 4, [("p", [1])], true, 0⟩]
        ⟨[], 0, false, 0, 0⟩).episodeComplete =
      lastCountedEnd 0 0 5 [⟨MsgTag.COLLECT_DONE, "a0", 0, 5, 4, [("p", [1])], true, 0⟩] false :=
  ⟨by decide, by decide,
   collect_episode_complete_last_counted 2 0 0 5
     [⟨MsgTag.COLLECT_DONE, "a0", 0, 5, 4, [("p", [1])], true, 0⟩] 3
     ⟨[], 0, false, 0, 0⟩ (by decide) (by decide)⟩

/-- C5: provided building the request body does not itself fail (the
exploration dict is present, or the dirty flag is clear), `collect` never
raises: for every message stream — including one that exhausts
`max_receive_attempts` before `num_actors` responses are counted — it
returns the per-policy experience merged by the gather phase.  Moreover the
gather phase stops as soon as a counted message brings `num_finishes` up to
`num_actors`: the remaining stream and remaining attempts are ignored. -/
theorem collect_partial_quorum_returns (self : ParallelRolloutManager)
    (hexp : self.explorationDict ≠ none ∨ self.explorationUpdate = false)
    (ep seg : Int) (msgs : List Msg) :
    (∃ r, self.collect ep seg msgs = Except.ok r ∧
      r.combined = (gather self.numActors self.maxStaleness ep seg self.maxReceiveAttempts
        msgs ⟨[], 0, self.episodeComplete, self.totalExperiencesCollected,
          self.totalEnvSteps⟩).combined)
    ∧ (∀ (st : RoundState) (m : Msg) (attempts : Nat) (ms : List Msg),
        (processMsg self.maxStaleness ep seg st m).2 = true →
        (processMsg self.maxStaleness ep seg st m).1.numFinishes = self.numActors →
        gather self.numActors self.maxStaleness ep seg (attempts + 1) (m :: ms) st =
          (processMsg self.maxStaleness ep seg st m).1) := by
  constructor
  · unfold ParallelRolloutManager.collect
    by_cases hu : self.explorationUpdate = true
    · rcases hds : self.explorationDict with _ | d
      · rcases hexp with h | h
        · exact absurd hds h
        · rw [h] at hu
          cases hu
      · rw [if_pos hu]
        exact ⟨_, rfl, rfl⟩
    · have hu' : self.explorationUpdate = false := by simpa using hu
      simp only [hu', Bool.false_eq_true, if_false]
      exact ⟨_, rfl, rfl⟩
  · intro st m attempts ms hc hq
    simp only [gather]
    rw [if_pos ⟨hc, hq⟩]

/-- C5 witness: two actors but an empty stream — attempts are exhausted
with no response, `collect` still returns (the merged experience of the
empty gather); and a quorum-completing message ends the gather at once,
whatever follows it. -/
theorem collect_partial_quorum_returns_witness :
    (∃ r, (⟨2, 2, 0, 1, -1, ["a0", "a1"], none, false, false, 0, 0⟩ :
        ParallelRolloutManager).collect 0 0 [] = Except.ok r ∧
      r.combined = (gather 2 0 0 0 2 [] ⟨[], 0, false, 0, 0⟩).combined)
    ∧ (∀ (st : RoundState) (m : Msg) (attempts : Nat) (ms : List Msg),
        (processMsg 0 0 0 st m).2 = true →
        (processMsg 0 0 0 st m).1.numFinishes = 2 →
        gather 2 0 0 0 (attempts + 1) (m :: ms) st = (processMsg 0 0 0 st m).1) :=
  collect_partial_quorum_returns
    ⟨2, 2, 0, 1, -1, ["a0", "a1"], none, false, false, 0, 0⟩ (Or.inr rfl) 0 0 []

/-- C4 counterexample: a freshly constructed manager (no round has ended,
no episode has completed, `episode_complete` is false throughout) already
includes the exploration parameters in its very first COLLECT request body,
because `__init__` sets the dirty flag to true.  This refutes "absent from
the request body of every other collect call of an unchanged episode". -/
theorem collect_exploration_first_call_counterexample :
    (ParallelRolloutManager.init 1 ["a0"] (some [("eps", 5)]) (-1) none 0 1).bind
      (fun mgr => (mgr.collect 0 0 []).map
        (fun r => (r.sentExploration, r.mgr.episodeComplete)))
      = Except.ok (some [("eps", 5)], false) := rfl

/-- C4 amended: with a non-empty exploration dict, the parameters are
included in a COLLECT request body exactly when the dirty flag is set at
call time, and after the call the flag is set exactly when that round ended
with `episode_complete` true; since construction sets the flag, the
inclusions are: the first call after construction, and the first call after
each round that ended with `episode_complete` true — no other call
includes them. -/
theorem collect_exploration_once_per_completion (self : ParallelRolloutManager)
    (d : List (String × Nat)) (hd : self.explorationDict = some d) (hne : d ≠ [])
    (ep seg : Int) (msgs : List Msg) :
    (∃ r, self.collect ep seg msgs = Except.ok r ∧
      r.sentExploration = (if self.explorationUpdate then some d else none) ∧
      r.mgr.explorationUpdate = r.mgr.episodeComplete)
    ∧ (∀ (numActors : Nat) (actors : List String) (numSteps : Int)
        (maxReceiveAttempts : Option Nat) (maxStaleness : Int) (numEvalActors : Nat)
        (mgr0 : ParallelRolloutManager),
        ParallelRolloutManager.init numActors actors (some d) numSteps
          maxReceiveAttempts maxStaleness numEvalActors = Except.ok mgr0 →
        mgr0.explorationUpdate = true) := by
  constructor
  · have hflag : ∀ (mgr : ParallelRolloutManager) (se : Option (List (String × Nat))),
        mgr.explorationDict = some d → mgr.explorationUpdate = false →
        (collectGatherPhase mgr se ep seg msgs).mgr.explorationUpdate =
          (collectGatherPhase mgr se ep seg msgs).mgr.episodeComplete := by
      intro mgr se hmd hmu
      unfold collectGatherPhase
      by_cases hout : (gather mgr.numActors mgr.maxStaleness ep seg mgr.maxReceiveAttempts
          msgs ⟨[], 0, mgr.episodeComplete, mgr.totalExperiencesCollected,
            mgr.totalEnvSteps⟩).episodeComplete = true
      · simp only [hout, hmd, if_true]
        have : d.isEmpty = false := by
          cases d with
          | nil => exact absurd rfl hne
          | cons x xs => rfl
        simp [this]
      · have hout' : (gather mgr.numActors mgr.maxStaleness ep seg mgr.maxReceiveAttempts
            msgs ⟨[], 0, mgr.episodeComplete, mgr.totalExperiencesCollected,
              mgr.totalEnvSteps⟩).episodeComplete = false := by simpa using hout
        simp [hout', hmu]
    unfold ParallelRolloutManager.collect
    by_cases hu : self.explorationUpdate = true
    · rw [hd, if_pos hu]
      refine ⟨_, rfl, by rw [if_pos hu]; rfl, ?_⟩
      exact hflag { self with explorationUpdate := false, explorationDict := some d }
        (some d) rfl rfl
    · have hu' : self.explorationUpdate = false := by simpa using hu
      rw [if_neg (by simp [hu'])]
      exact ⟨_, rfl, by rw [if_neg (by simp [hu'])]; rfl, hflag self none hd hu'⟩
  · intro numActors actors numSteps maxReceiveAttempts maxStaleness numEvalActors mgr0 hinit
    unfold ParallelRolloutManager.init at hinit
    by_cases hgt : numEvalActors > numActors
    · simp [hgt] at hinit
    · simp [hgt] at hinit
      rw [← hinit]

/-- C4 amended witness: a manager with the dirty flag clear and a stream
with no responses — the request body carries no exploration parameters,
and the flag stays clear because the round did not complete an episode. -/
theorem collect_exploration_once_per_completion_witness :
    some [("eps", 3)] = some [("eps", 3)] ∧ (["eps"] ≠ ([] : List String)) ∧
    (∃ r, (⟨2, 2, 0, 1, -1, ["a0", "a1"], some [("eps", 3)], false, false, 0, 0⟩ :
        ParallelRolloutManager).collect 1 4 [] = Except.ok r ∧
      r.sentExploration = (if false then some [("eps", 3)] else none) ∧
      r.mgr.explorationUpdate = r.mgr.episodeComplete) :=
  ⟨rfl, by decide,
   (collect_exploration_once_per_completion
     ⟨2, 2, 0, 1, -1, ["a0", "a1"], some [("eps", 3)], false, false, 0, 0⟩
     [("eps", 3)] rfl (by decide) 1 4 []).1⟩

/-- Overwriting dict assignment grows the mapping by at most one entry. -/
theorem insertSummary_length (dict : List (String × Nat)) (src v : _) :
    (insertSummary dict src v).length ≤ dict.length + 1 := by
  induction dict with
  | nil => simp [insertSummary]
  | cons p rest ih =>
      obtain ⟨s, w⟩ := p
      unfold insertSummary
      by_cases h : s = src
      · simp [h]
      · rw [if_neg h]
        simp only [List.length_cons]
        omega


/-- The evaluate receive loop adds at most `k - num_finishes` entries to
the summary dict before breaking. -/
theorem evalGather_length (k : Nat) (ep : Int) (msgs : List Msg)
    (dict : List (String × Nat)) (nf : Nat) (h : nf < k) :
    (evalGather k ep msgs dict nf).length ≤ dict.length + (k - nf) := by
  induction msgs generalizing dict nf with
  | nil =>
      simp only [evalGather]
      omega
  | cons m ms ih =>
      unfold evalGather
      by_cases hm : m.tag ≠ MsgTag.EVAL_DONE ∨ m.episodeIndex ≠ ep
      · rw [if_pos hm]
        exact le_trans (ih dict nf h) (by omega)
      · rw [if_neg hm]
        push_neg at hm
        rw [if_pos hm.2]
        by_cases hk : nf + 1 = k
        · rw [if_pos hk]
          have := insertSummary_length dict m.source m.envSummary
          omega
        · rw [if_neg hk]
          have h1 := ih (insertSummary dict m.source m.envSummary) (nf + 1) (by omega)
          have h2 := insertSummary_length dict m.source m.envSummary
          omega

/-- C8: `evaluate` with `num_eval_actors = k ≥ 1` sends exactly `k` scatter
requests — one per entry of the random roster selection, which may repeat
actors — and the returned summary mapping, keyed by responding actor
identity with duplicate senders overwriting their own prior entry, has at
most `k` entries. -/
theorem evaluate_request_count_and_summary_bound (self : ParallelRolloutManager)
    (ep : Int) (selection : List String) (msgs : List Msg)
    (hsel : selection.length = self.numEvalActors)
    (_hmem : ∀ a ∈ selection, a ∈ self.actors)
    (hpos : 1 ≤ self.numEvalActors) :
    (self.evaluate ep selection msgs).1 = self.numEvalActors ∧
    (self.evaluate ep selection msgs).2.length ≤ self.numEvalActors := by
  unfold ParallelRolloutManager.evaluate
  refine ⟨hsel, ?_⟩
  have := evalGather_length self.numEvalActors ep msgs [] 0 (by omega)
  simpa using this

/-- C8 witness: `num_eval_actors = 2`, a duplicate selection of the same
actor (allowed), three incoming responses: exactly 2 requests are sent and
at most 2 summaries are returned. -/
theorem evaluate_request_count_and_summary_bound_witness :
    (["a0", "a0"] : List String).length = 2
    ∧ (∀ a ∈ (["a0", "a0"] : List String), a ∈ (["a0", "a1"] : List String))
    ∧ ((⟨2, 2, 0, 2, -1, ["a0", "a1"], none, false, false, 0, 0⟩ :
          ParallelRolloutManager).evaluate 0 ["a0", "a0"]
          [⟨MsgTag.EVAL_DONE, "a0", 0, 0, 0, [], false, 11⟩,
           ⟨MsgTag.EVAL_DONE, "a1", 0, 0, 0, [], false, 22⟩,
           ⟨MsgTag.EVAL_DONE, "a0", 0, 0, 0, [], false, 33⟩]).1 = 2
    ∧ ((⟨2, 2, 0, 2, -1, ["a0", "a1"], none, false, false, 0, 0⟩ :
          ParallelRolloutManager).evaluate 0 ["a0", "a0"]
          [⟨MsgTag.EVAL_DONE, "a0", 0, 0, 0, [], false, 11⟩,
           ⟨MsgTag.EVAL_DONE, "a1", 0, 0, 0, [], false, 22⟩,
           ⟨MsgTag.EVAL_DONE, "a0", 0, 0, 0, [], false, 33⟩]).2.length ≤ 2 :=
  ⟨rfl, by decide,
   (evaluate_request_count_and_summary_bound
     ⟨2, 2, 0, 2, -1, ["a0", "a1"], none, false, false, 0, 0⟩ 0 ["a0", "a0"]
     [⟨MsgTag.EVAL_DONE, "a0", 0, 0, 0, [], false, 11⟩,
      ⟨MsgTag.EVAL_DONE, "a1", 0, 0, 0, [], false, 22⟩,
      ⟨MsgTag.EVAL_DONE, "a0", 0, 0, 0, [], false, 33⟩] rfl (by decide) (by decide)).1,
   (evaluate_request_count_and_summary_bound
     ⟨2, 2, 0, 2, -1, ["a0", "a1"], none, false, false, 0, 0⟩ 0 ["a0", "a0"]
     [⟨MsgTag.EVAL_DONE, "a0", 0, 0, 0, [], false, 11⟩,
      ⟨MsgTag.EVAL_DONE, "a1", 0, 0, 0, [], false, 22⟩,
      ⟨MsgTag.EVAL_DONE, "a0", 0, 0, 0, [], false, 33⟩] rfl (by decide) (by decide)).2⟩

/-- Closed form of the rollout loop: the environment advances by the lesser
of the remaining steps to the terminal state and the step budget. -/
theorem rolloutLoop_closed (env : LocalEnv) (stepsToGo : Option Nat) :
    rolloutLoop env stepsToGo =
      ⟨env.stepIndex + min (env.horizon - env.stepIndex)
        (budgetVal (env.horizon - env.stepIndex) stepsToGo), env.horizon⟩ := by
  induction env, stepsToGo using rolloutLoop.induct with
  | case1 env stepsToGo hcond ih =>
      rw [rolloutLoop, dif_pos hcond, ih]
      obtain ⟨h1, h2⟩ := hcond
      have hs : env.stepIndex < env.horizon := by
        simpa [LocalEnv.hasState] using h1
      cases stepsToGo with
      | none =>
          simp only [LocalEnv.step, budgetVal, decBudget, Option.map, Nat.min_self]
          congr 1
          omega
      | some n =>
          have hn : 0 < n := by simpa [budgetPos] using h2
          simp only [LocalEnv.step, budgetVal, decBudget, Option.map]
          congr 1
          omega
  | case2 env stepsToGo hcond =>
      rw [rolloutLoop, dif_neg hcond]
      rcases not_and_or.mp hcond with h | h
      · have hterm : ¬ env.stepIndex < env.horizon := by
          simpa [LocalEnv.hasState] using h
        have hz : env.horizon - env.stepIndex = 0 := by omega
        cases env
        simp_all
      · cases stepsToGo with
        | none => simp [budgetPos] at h
        | some n =>
            have hz : n = 0 := by
              have := (not_iff_not.mpr decide_eq_true_iff).mpr h
              simp [budgetPos] at h
              omega
            subst hz
            cases env
            simp [budgetVal]

/-- C7: against an environment that reaches its terminal state only at step
10, `collect` with `num_steps = 3` executes exactly 3 environment steps and
leaves `episode_complete` false; with `num_steps = -1` (unbounded) it
executes exactly 10 steps, sets `episode_complete` true, and advances every
exploration scheme's schedule by one step. -/
theorem local_collect_step_counts :
    (LocalRolloutManager.init ⟨0, 10⟩ (some [("eps", 0)]) 3).map
        (fun mgr => (mgr.collect.env.stepIndex, mgr.collect.episodeComplete,
          mgr.collect.explorationDict))
      = Except.ok (3, false, some [("eps", 0)])
    ∧ (LocalRolloutManager.init ⟨0, 10⟩ (some [("e1", 0), ("e2", 5)]) (-1)).map
        (fun mgr => (mgr.collect.env.stepIndex, mgr.collect.episodeComplete,
          mgr.collect.explorationDict))
      = Except.ok (10, true, some [("e1", 1), ("e2", 6)]) := by
  constructor
  · have h3 : rolloutLoop ⟨0, 10⟩ (some 3) = ⟨3, 10⟩ := by
      rw [rolloutLoop_closed]
      decide
    simp [LocalRolloutManager.init, LocalRolloutManager.collect, Except.map,
      LocalEnv.hasState, h3]
  · have h10 : rolloutLoop ⟨0, 10⟩ none = ⟨10, 10⟩ := by
      rw [rolloutLoop_closed]
      decide
    simp [LocalRolloutManager.init, LocalRolloutManager.collect, Except.map,
      LocalEnv.hasState, h10]

end RolloutManager
